import Mathlib

/-!
Verification of the zeroeval-ts tracing core (Span, Tracer, BackendSpanWriter,
pending-signal store) against its natural-language specification.

The TypeScript sources are shallowly embedded: JS objects used as string-keyed
records become association lists with first-occurrence lookup and in-place
update (JS objects cannot hold a duplicate key, and property insertion order is
preserved); `randomUUID()` results are passed in explicitly as `fresh`
identifiers; `Date.now()` is passed in as a `now : Nat` argument; `async`
effects (the HTTP transport outcome, spans pushed to the buffer while a write
is awaited) are explicit parameters.
-/

namespace ZeroEval

/-- First value stored under key `k`, as JS property lookup (`r[k]`). -/
def recordGet : List (String × α) → String → Option α
  | [], _ => none
  | p :: rest, k => if p.1 = k then some p.2 else recordGet rest k

/-- JS property assignment `r[k] = v`: replace the value at an existing key in
place, otherwise append the new key at the end (JS objects keep insertion
order of string keys). -/
def recordSet : List (String × α) → String → α → List (String × α)
  | [], k, v => [(k, v)]
  | p :: rest, k, v => if p.1 = k then (k, v) :: rest else p :: recordSet rest k v

/-- `Object.assign(r, extra)` (also `{...r, ...extra}` for records built by
`recordSet`, which keeps keys unique): fold key-by-key assignment of `extra`
over `r`, later writes winning. -/
def recordAssign (r extra : List (String × α)) : List (String × α) :=
  extra.foldl (fun acc p => recordSet acc p.1 p.2) r

/-- `delete r[k]`: drop every pair stored under `k` (at most one in a record
reachable by `recordSet`, since JS objects have unique keys). -/
def recordDelete (r : List (String × α)) (k : String) : List (String × α) :=
  r.filter (fun p => p.1 ≠ k)

/-- Left-biased choice on options, used to phrase lookup in merged records. -/
def optOr : Option α → Option α → Option α
  | some v, _ => some v
  | none, b => b

/-- Value of the LAST write to key `k` in the write sequence `e`. -/
def lastWrite (e : List (String × α)) (k : String) : Option α :=
  recordGet e.reverse k

/-! ### JS semantics helpers -/

/-- Truthiness of an optional string (`a.parentId ? _ : _`): `undefined` and
the empty string are falsy, every other string truthy. -/
def jsTruthyOptStr : Option String → Bool
  | none => false
  | some s => !(s = "")

/-- Truthiness of an optional millisecond timestamp (`span.endTime ? _ : _`,
`if (!span.endTime)`): `undefined` and `0` are falsy. -/
def jsTruthyOptNat : Option Nat → Bool
  | none => false
  | some n => !(n = 0)

/-- Whitespace accepted by ECMAScript `StringNumericLiteral` parsing
(WhiteSpace plus LineTerminator code points). -/
def isStrWhiteSpace (c : Char) : Bool :=
  c = ' ' || c = '\t' || c = '\n' || c = '\r' ||
  c.toNat = 11 || c.toNat = 12 || c.toNat = 0xA0 || c.toNat = 0xFEFF ||
  c.toNat = 0x1680 || (0x2000 ≤ c.toNat && c.toNat ≤ 0x200A) ||
  c.toNat = 0x2028 || c.toNat = 0x2029 || c.toNat = 0x202F ||
  c.toNat = 0x205F || c.toNat = 0x3000

def isDecDigit (c : Char) : Bool := '0' ≤ c && c ≤ '9'

def isHexDigit (c : Char) : Bool :=
  isDecDigit c || ('a' ≤ c && c ≤ 'f') || ('A' ≤ c && c ≤ 'F')

def isOctDigit (c : Char) : Bool := '0' ≤ c && c ≤ '7'

def isBinDigit (c : Char) : Bool := c = '0' || c = '1'

/-- After the mantissa of a decimal literal, the remaining characters must be
empty or a full `ExponentPart` (`e`/`E`, optional sign, one or more digits). -/
def parseExpOrEnd : List Char → Bool
  | [] => true
  | c :: rest =>
    if c = 'e' || c = 'E' then
      let rest := match rest with
        | s :: r => if s = '+' || s = '-' then r else s :: r
        | [] => []
      !(rest.takeWhile isDecDigit).isEmpty && (rest.dropWhile isDecDigit).isEmpty
    else false

/-- `StrUnsignedDecimalLiteral` without the `Infinity` alternative:
`Digits . Digits? ExponentPart?` or `Digits ExponentPart?` or
`. Digits ExponentPart?`. -/
def parseUnsignedDec (cs : List Char) : Bool :=
  let ip := cs.takeWhile isDecDigit
  let rest := cs.dropWhile isDecDigit
  if !ip.isEmpty then
    match rest with
    | '.' :: rest2 => parseExpOrEnd (rest2.dropWhile isDecDigit)
    | _ => parseExpOrEnd rest
  else
    match cs with
    | '.' :: rest2 =>
      !(rest2.takeWhile isDecDigit).isEmpty &&
        parseExpOrEnd (rest2.dropWhile isDecDigit)
    | _ => false

/-- `0x`/`0o`/`0b` integer literals (no sign allowed in front of these). -/
def parseNonDecimal : List Char → Bool
  | '0' :: x :: rest =>
    if x = 'x' || x = 'X' then
      !rest.isEmpty && rest.all isHexDigit
    else if x = 'o' || x = 'O' then
      !rest.isEmpty && rest.all isOctDigit
    else if x = 'b' || x = 'B' then
      !rest.isEmpty && rest.all isBinDigit
    else false
  | _ => false

/-- Classification of ECMAScript `ToNumber` applied to a string, by the shape
of the `StringNumericLiteral` grammar: `nan` when the string does not parse,
`infinite` for a (signed) `Infinity` literal, `finite` otherwise. The empty or
all-whitespace string parses to `0`, hence `finite`. (A decimal literal whose
value overflows the double range, such as `1e999`, is classified by grammar
shape as `finite`; only the `nan` / not-`nan` distinction is consumed by the
code under verification, and that distinction is exact.) -/
inductive NumClass
  | nan
  | finite
  | infinite
deriving DecidableEq, Repr

def jsStringNumClass (s : String) : NumClass :=
  let cs := ((s.toList.dropWhile isStrWhiteSpace).reverse.dropWhile
      isStrWhiteSpace).reverse
  if cs.isEmpty then .finite
  else
    let body := match cs with
      | c :: rest => if c = '+' || c = '-' then rest else cs
      | [] => cs
    if body = ['I', 'n', 'f', 'i', 'n', 'i', 't', 'y'] then .infinite
    else if parseUnsignedDec body then .finite
    else if parseNonDecimal cs then .finite
    else .nan

/-- `isNaN(Number(s))` for a string `s`. -/
def jsIsNaNOfString (s : String) : Bool := jsStringNumClass s = NumClass.nan

/-- `String.prototype.toLowerCase()`, character by character (the strings the
detection logic compares against are ASCII, where simple case mapping is all
there is). -/
def jsToLowerCase (s : String) : String := String.mk (s.data.map Char.toLower)

/-! ### Signals and the Span data model -/

/-- `SignalType = 'boolean' | 'numerical'` from `signals.ts`. -/
inductive SignalType
  | boolean
  | numerical
deriving DecidableEq, Repr

/-- The `string | boolean | number` union used for signal values. The numeric
payload is carried but never inspected by the code under verification (only
`typeof` tests reach it), so it is embedded as an integer. -/
inductive JSValue
  | str (s : String)
  | bool (b : Bool)
  | num (n : Int)
deriving DecidableEq, Repr

/-- `Signal` interface of `signals.ts`. -/
structure Signal where
  value : JSValue
  type : SignalType
deriving DecidableEq, Repr

/-- `detectSignalType` from `signals.ts`: booleans are `boolean`, numbers are
`numerical`; a string is `boolean` when it lower-cases to `"true"`/`"false"`,
`numerical` when `Number(value)` is not `NaN`, `boolean` otherwise. -/
def detectSignalType (value : JSValue) : SignalType :=
  match value with
  | .bool _ => .boolean
  | .num _ => .numerical
  | .str s =>
    let strVal := jsToLowerCase s
    if strVal = "true" || strVal = "false" then .boolean
    else if !(jsIsNaNOfString s) then .numerical
    else .boolean

/-- `ErrorInfo` interface from `Span.ts` (all fields optional). -/
structure ErrorInfo where
  code : Option String := none
  message : Option String := none
  stack : Option String := none
deriving DecidableEq, Repr

inductive SpanStatus
  | ok
  | error
deriving DecidableEq, Repr

/-- The `Span` class from `Span.ts`. `unknown`-typed attribute values are
embedded as strings (the tracing core never inspects them); timestamps are
milliseconds as natural numbers. -/
structure Span where
  spanId : String
  traceId : String
  parentId : Option String := none
  name : String
  startTime : Nat
  endTime : Option Nat := none
  sessionId : Option String := none
  sessionName : Option String := none
  attributes : List (String × String) := []
  tags : List (String × String) := []
  traceTags : List (String × String) := []
  sessionTags : List (String × String) := []
  signals : List (String × Signal) := []
  inputData : Option String := none
  outputData : Option String := none
  error : Option ErrorInfo := none
  status : SpanStatus := .ok
deriving DecidableEq, Repr

/-- `Span.end()`: unconditionally records the current time as `endTime`. -/
def Span.end (s : Span) (now : Nat) : Span :=
  { s with endTime := some now }

/-- `durationMs` getter: `this.endTime ? this.endTime - this.startTime :
undefined` (note the truthiness test, not an undefined test). -/
def Span.durationMs (s : Span) : Option Int :=
  if jsTruthyOptNat s.endTime then
    some ((s.endTime.getD 0 : Int) - (s.startTime : Int))
  else none

/-- `Span.setError(info)`: stores the error and forces `status` to error. -/
def Span.setError (s : Span) (info : ErrorInfo) : Span :=
  { s with error := some info, status := .error }

/-- `Span.addSignal(name, value, type?)` with its inlined auto-detection, as
written in `Span.ts` (the detection duplicates `detectSignalType`). -/
def Span.addSignal (sp : Span) (name : String) (value : JSValue)
    (type? : Option SignalType) : Span :=
  let signalType :=
    match type? with
    | some t => t
    | none =>
      match value with
      | .bool _ => SignalType.boolean
      | .num _ => SignalType.numerical
      | .str s =>
        let strVal := jsToLowerCase s
        if strVal = "true" || strVal = "false" then SignalType.boolean
        else if !(jsIsNaNOfString s) then SignalType.numerical
        else SignalType.boolean
  { sp with signals := recordSet sp.signals name { value := value, type := signalType } }

/-! ### Serialization: `Span.toJSON` and the writer's wire payload -/

/-- Result of `Span.toJSON()`. ISO-8601 timestamp strings are abstracted to the
underlying millisecond values; a field that JS leaves `undefined` is `none`. -/
structure SpanJSON where
  span_id : String
  trace_id : String
  parent_id : Option String
  name : String
  start_time : Nat
  end_time : Option Nat
  duration_ms : Option Int
  session_id : Option String
  session_name : Option String
  attributes : List (String × String)
  tags : List (String × String)
  trace_tags : List (String × String)
  session_tags : List (String × String)
  signals : List (String × Signal)
  input_data : Option String
  output_data : Option String
  error_code : Option String
  error_message : Option String
  error_stack : Option String
  status : SpanStatus
deriving DecidableEq, Repr

/-- `Span.toJSON()` from `Span.ts`. `end_time` uses the truthiness test
`this.endTime ? ... : undefined`; the error fields are `this.error?.code` and
friends, so all three are `undefined` when no error is recorded. -/
def Span.toJSON (s : Span) : SpanJSON where
  span_id := s.spanId
  trace_id := s.traceId
  parent_id := s.parentId
  name := s.name
  start_time := s.startTime
  end_time := if jsTruthyOptNat s.endTime then s.endTime else none
  duration_ms := s.durationMs
  session_id := s.sessionId
  session_name := s.sessionName
  attributes := s.attributes
  tags := s.tags
  trace_tags := s.traceTags
  session_tags := s.sessionTags
  signals := s.signals
  input_data := s.inputData
  output_data := s.outputData
  error_code := s.error.bind ErrorInfo.code
  error_message := s.error.bind ErrorInfo.message
  error_stack := s.error.bind ErrorInfo.stack
  status := s.status

/-- One element of the JSON array that `BackendSpanWriter.write` POSTs. Note
the type of `error_stack`: the source computes `String(base.error_stack ??
'')`, so this field is always present, and is the empty string when the span
carries no error (or an error without a stack). -/
structure WireSpan where
  id : String
  session_id : Option String
  trace_id : String
  parent_span_id : Option String
  name : String
  started_at : Nat
  ended_at : Option Nat
  duration_ms : Option Int
  attributes : List (String × String)
  status : SpanStatus
  input_data : Option String
  output_data : Option String
  code : Option String
  code_filepath : Option String
  code_lineno : Option String
  error_code : Option String
  error_message : Option String
  error_stack : String
  tags : List (String × String)
  trace_tags : List (String × String)
  session_tags : List (String × String)
deriving DecidableEq, Repr

/-- The per-span payload mapping inside `BackendSpanWriter.write` (`base` is
`s.toJSON()`; `base.code ?? base.attributes?.code` falls back to the
attributes record since `toJSON` emits no `code` field). -/
def wireOfJSON (base : SpanJSON) : WireSpan where
  id := base.span_id
  session_id := base.session_id
  trace_id := base.trace_id
  parent_span_id := base.parent_id
  name := base.name
  started_at := base.start_time
  ended_at := base.end_time
  duration_ms := base.duration_ms
  attributes := base.attributes
  status := base.status
  input_data := base.input_data
  output_data := base.output_data
  code := recordGet base.attributes "code"
  code_filepath := recordGet base.attributes "code_filepath"
  code_lineno := recordGet base.attributes "code_lineno"
  error_code := base.error_code
  error_message := base.error_message
  error_stack := (base.error_stack).getD ""
  tags := base.tags
  trace_tags := base.trace_tags
  session_tags := base.session_tags

def Span.toWire (s : Span) : WireSpan := wireOfJSON s.toJSON

/-- Outcome of the one `fetch` call a `write` performs: an HTTP response with
its `ok` flag, or a network-level exception (the promise rejects). -/
inductive FetchOutcome
  | response (ok : Bool)
  | networkError
deriving DecidableEq, Repr

/-- How the promise returned by `write` settles. -/
inductive WriteResult
  | resolved
  | rejected
deriving DecidableEq, Repr

/-- Observable behaviour of one `BackendSpanWriter.write` call: how its
promise settles, the span payload it POSTs, and whether it went on to send
span-level and pending trace/session signals. -/
structure WriteEffects where
  result : WriteResult
  payload : List WireSpan
  sentSignals : Bool
deriving DecidableEq, Repr

/-- `BackendSpanWriter.write(spans)` from `writer.ts`: empty batches return
immediately; otherwise the payload is POSTed, a non-ok response is logged (and
signal sending skipped), a network exception is caught and logged. Every
branch of the source resolves the promise. -/
def BackendSpanWriter.write (spans : List Span) (outcome : FetchOutcome) :
    WriteEffects :=
  if spans.isEmpty then
    { result := .resolved, payload := [], sentSignals := false }
  else
    match outcome with
    | .response true =>
      { result := .resolved, payload := spans.map Span.toWire, sentSignals := true }
    | .response false =>
      { result := .resolved, payload := spans.map Span.toWire, sentSignals := false }
    | .networkError =>
      { result := .resolved, payload := spans.map Span.toWire, sentSignals := false }

/-! ### The Tracer -/

/-- Mutable state of the `Tracer` class (the parts the verified operations
touch): the shared output buffer, the per-trace active-span counters, and the
per-trace buckets of ended spans. -/
structure TracerState where
  buffer : List Span := []
  activeTraceCounts : List (String × Int) := []
  traceBuckets : List (String × List Span) := []
deriving DecidableEq, Repr

/-- Options record accepted by `Tracer.startSpan`. -/
structure StartOpts where
  attributes : List (String × String) := []
  sessionId : Option String := none
  sessionName : Option String := none
  tags : List (String × String) := []
deriving DecidableEq, Repr

/-- The identifiers `randomUUID()` would mint during one `startSpan` call,
passed in explicitly. -/
structure Fresh where
  spanId : String
  traceId : String
  sessionId : String
deriving DecidableEq, Repr

/-- `Tracer.startSpan(name, opts)`. The async-local-storage stack is passed
and returned explicitly, top element last (`stack[stack.length - 1]` is the
current span). Returns the new span, the updated tracer state, and the
updated stack. -/
def Tracer.startSpan (st : TracerState) (stack : List Span) (name : String)
    (opts : StartOpts) (fresh : Fresh) (now : Nat) :
    Span × TracerState × List Span :=
  let parent := stack.getLast?
  let base : Span :=
    { spanId := fresh.spanId
      traceId := (parent.map Span.traceId).getD fresh.traceId
      name := name
      startTime := now }
  let span :=
    match parent with
    | some p =>
      { base with
        parentId := some p.spanId
        sessionId := p.sessionId
        sessionName := p.sessionName
        tags := recordAssign p.tags opts.tags }
    | none =>
      { base with
        sessionId := some (opts.sessionId.getD fresh.sessionId)
        sessionName := opts.sessionName
        tags := recordAssign [] opts.tags }
  let span := { span with attributes := recordAssign span.attributes opts.attributes }
  let counts := recordSet st.activeTraceCounts span.traceId
    (((recordGet st.activeTraceCounts span.traceId).getD 0) + 1)
  (span, { st with activeTraceCounts := counts }, stack ++ [span])

/-- `traceBucket.sort((a) => (a.parentId ? 1 : -1))`: the comparator only
inspects its first argument, so the sort can only separate root spans (falsy
`parentId`) from the rest. For a bucket holding at most one root — the only
shape `startSpan` can produce, since a parentless span opens a fresh trace —
V8 handles buckets of this size with a binary insertion sort whose result is
exactly the root moved to the front with all other spans left in insertion
order, i.e. a stable root-first partition, which is what this definition
computes. -/
def sortRootsFirst (spans : List Span) : List Span :=
  spans.filter (fun s => !(jsTruthyOptStr s.parentId)) ++
    spans.filter (fun s => jsTruthyOptStr s.parentId)

/-- `Tracer.endSpan(span)`: end the span if its `endTime` is falsy, pop the
stack when the span is on top (object identity is modelled by `spanId`, which
is unique), append it to its trace's bucket, decrement the trace's counter,
and on reaching zero move the sorted bucket into the shared buffer and drop
the per-trace bookkeeping. (The buffer-full flush trigger fires and forgets a
`flush`; `flush` is modelled separately below.) Returns the ended span, the
new tracer state and the new stack. -/
def Tracer.endSpan (st : TracerState) (stack : List Span) (span : Span)
    (now : Nat) : Span × TracerState × List Span :=
  let span := if jsTruthyOptNat span.endTime then span else span.end now
  let stack :=
    match stack.getLast? with
    | some top => if top.spanId = span.spanId then stack.dropLast else stack
    | none => stack
  let bucket := ((recordGet st.traceBuckets span.traceId).getD []) ++ [span]
  let cnt := ((recordGet st.activeTraceCounts span.traceId).getD 0) - 1
  if cnt = 0 then
    (span,
      { buffer := st.buffer ++ sortRootsFirst bucket
        activeTraceCounts := recordDelete st.activeTraceCounts span.traceId
        traceBuckets := recordDelete st.traceBuckets span.traceId },
      stack)
  else
    (span,
      { st with
        activeTraceCounts := recordSet st.activeTraceCounts span.traceId cnt
        traceBuckets := recordSet st.traceBuckets span.traceId bucket },
      stack)

/-- `Object.assign(span.tags, tags)` on one span. -/
def Span.assignTags (s : Span) (tags : List (String × String)) : Span :=
  { s with tags := recordAssign s.tags tags }

/-- `Tracer.addTraceTags(traceId, tags)`: merge `tags` into every span of the
trace's bucket and into every buffered span whose `traceId` matches. -/
def Tracer.addTraceTags (st : TracerState) (traceId : String)
    (tags : List (String × String)) : TracerState :=
  { st with
    traceBuckets := st.traceBuckets.map (fun kv =>
      if kv.1 = traceId then (kv.1, kv.2.map (fun s => s.assignTags tags)) else kv)
    buffer := st.buffer.map (fun s =>
      if s.traceId = traceId then s.assignTags tags else s) }

/-- `Tracer.addSessionTags(sessionId, tags)`: merge `tags` into every bucketed
or buffered span whose `sessionId` matches. -/
def Tracer.addSessionTags (st : TracerState) (sessionId : String)
    (tags : List (String × String)) : TracerState :=
  let upd := fun (s : Span) =>
    if s.sessionId = some sessionId then s.assignTags tags else s
  { st with
    traceBuckets := st.traceBuckets.map (fun kv => (kv.1, kv.2.map upd))
    buffer := st.buffer.map upd }

/-- Result of one `Tracer.flush()` call: the buffer once the call settles, the
batch handed to the writer (if any), and whether the call rejected. -/
structure FlushResult where
  buffer : List Span
  written : Option (List Span)
  threw : Bool
deriving DecidableEq, Repr

/-- `Tracer.flush()`: an empty buffer returns immediately; otherwise the whole
buffer is drained by `splice(0)` and handed to the writer. `arriving` are the
spans `endSpan` pushes while the write is awaited (empty when no write
happens); on a writer rejection the drained spans are `unshift`ed back in
front of them and the rejection is rethrown. `writeOk` tells whether the
writer's promise resolved. -/
def Tracer.flush (buffer arriving : List Span) (writeOk : Bool) : FlushResult :=
  if buffer.isEmpty then
    { buffer := arriving, written := none, threw := false }
  else if writeOk then
    { buffer := arriving, written := some buffer, threw := false }
  else
    { buffer := buffer ++ arriving, written := none, threw := true }

/-! ### Pending trace/session signal store (`pendingSignals.ts`) -/

/-- A pending-signal buffer: `entityId -> (signalName -> Signal)`. -/
abbrev PendingBuffer := List (String × List (String × Signal))

/-- `addPendingTraceSignal(traceId, name, signal)`: upsert into the trace's
bucket, creating it on first use (`traceBuffer[traceId] ||= {}`). -/
def addPendingTraceSignal (buf : PendingBuffer) (traceId name : String)
    (signal : Signal) : PendingBuffer :=
  recordSet buf traceId (recordSet ((recordGet buf traceId).getD []) name signal)

/-- `popPendingTraceSignals(traceId)`: remove and return the trace's bucket. -/
def popPendingTraceSignals (buf : PendingBuffer) (traceId : String) :
    Option (List (String × Signal)) × PendingBuffer :=
  match recordGet buf traceId with
  | some sigs => (some sigs, recordDelete buf traceId)
  | none => (none, buf)

/-- `addPendingSessionSignal(sessionId, name, signal)` (same body as the trace
variant, over the session buffer). -/
def addPendingSessionSignal (buf : PendingBuffer) (sessionId name : String)
    (signal : Signal) : PendingBuffer :=
  recordSet buf sessionId (recordSet ((recordGet buf sessionId).getD []) name signal)

/-- `popPendingSessionSignals(sessionId)`. -/
def popPendingSessionSignals (buf : PendingBuffer) (sessionId : String) :
    Option (List (String × Signal)) × PendingBuffer :=
  match recordGet buf sessionId with
  | some sigs => (some sigs, recordDelete buf sessionId)
  | none => (none, buf)

/-- Apply a sequence of pending-signal writes for one entity, in order. -/
def applyTraceAdds (buf : PendingBuffer) (traceId : String)
    (adds : List (String × Signal)) : PendingBuffer :=
  adds.foldl (fun b p => addPendingTraceSignal b traceId p.1 p.2) buf

def applySessionAdds (buf : PendingBuffer) (sessionId : String)
    (adds : List (String × Signal)) : PendingBuffer :=
  adds.foldl (fun b p => addPendingSessionSignal b sessionId p.1 p.2) buf

/-! ### Predicates and spec-side definitions -/

/-- `true` exactly when `.resolved`. -/
def WriteResult.isResolved : WriteResult → Bool
  | .resolved => true
  | .rejected => false

/-- The batch-order property claimed for a completed trace: no span of the
batch precedes its own parent, i.e. whenever `C.parentId = P.spanId` and both
are in the batch, `P` comes first. -/
def parentBeforeChild (batch : List Span) : Prop :=
  List.Pairwise (fun a b => a.parentId ≠ some b.spanId) batch

instance (batch : List Span) : Decidable (parentBeforeChild batch) := by
  unfold parentBeforeChild
  infer_instance

/-- Modelled from the spec (for comparison with the code): the Span Writer
contract under which every transport failure — a non-2xx response as well as a
network exception — is reported through the async rejection channel. -/
def specWriteReportsFailure : Prop :=
  ∀ (spans : List Span) (outcome : FetchOutcome),
    spans ≠ [] → outcome ≠ FetchOutcome.response true →
    (BackendSpanWriter.write spans outcome).result = WriteResult.rejected

/-- Modelled from the spec (for comparison with the code): "string parseable
as a finite number" — the string parses under the numeric-literal grammar and
the parse is not an `Infinity` literal. -/
def specParseableAsFiniteNumber (s : String) : Bool :=
  jsStringNumClass s = NumClass.finite

/-- Modelled from the spec (for comparison with the code): the auto-detection
rule as the spec words it, with `numerical` reserved for strings parseable as
a FINITE number. -/
def specDetectSignalType (value : JSValue) : SignalType :=
  match value with
  | .bool _ => .boolean
  | .num _ => .numerical
  | .str s =>
    if jsToLowerCase s = "true" || jsToLowerCase s = "false" then .boolean
    else if specParseableAsFiniteNumber s then .numerical
    else .boolean

/-- A span with every field but `tags` kept: used to state that the tag
helpers write nothing else. -/
def Span.eraseTags (s : Span) : Span := { s with tags := [] }

/-! ### Concrete inputs used by counterexamples and evaluations -/

/-- A plain span with no error and no signals. -/
def exSpan : Span :=
  { spanId := "s1", traceId := "t1", name := "work", startTime := 10 }

/-- Three nested spans of one trace driven through `startSpan`, then ended
innermost-first, the order a nested synchronous caller produces: `root`
(span id `r`), its child (`a`), and the grandchild (`b`). -/
def c1Start1 : Span × TracerState × List Span :=
  Tracer.startSpan {} [] "root" {}
    { spanId := "r", traceId := "T", sessionId := "S" } 0

def c1Start2 : Span × TracerState × List Span :=
  Tracer.startSpan c1Start1.2.1 c1Start1.2.2 "childA" {}
    { spanId := "a", traceId := "TX", sessionId := "SX" } 1

def c1Start3 : Span × TracerState × List Span :=
  Tracer.startSpan c1Start2.2.1 c1Start2.2.2 "childB" {}
    { spanId := "b", traceId := "TY", sessionId := "SY" } 2

def c1End1 : Span × TracerState × List Span :=
  Tracer.endSpan c1Start3.2.1 c1Start3.2.2 c1Start3.1 3

def c1End2 : Span × TracerState × List Span :=
  Tracer.endSpan c1End1.2.1 c1End1.2.2 c1Start2.1 4

def c1End3 : Span × TracerState × List Span :=
  Tracer.endSpan c1End2.2.1 c1End2.2.2 c1Start1.1 5

/-- The shared output buffer after the whole trace of `c1Start1` has ended. -/
def c1FinalBuffer : List Span := c1End3.2.1.buffer

/-! ### Lemmas about the record model -/

theorem recordGet_recordSet (r : List (String × α)) (k k' : String) (v : α) :
    recordGet (recordSet r k v) k' = if k = k' then some v else recordGet r k' := by
  induction r with
  | nil =>
    by_cases h : k = k' <;> simp [recordSet, recordGet, h]
  | cons p rest ih =>
    by_cases hp : p.1 = k
    · by_cases h : k = k'
      · simp [recordSet, recordGet, hp, h]
      · have hp' : ¬ p.1 = k' := fun hc => h (hp.symm.trans hc)
        simp [recordSet, recordGet, hp, h, hp']
    · by_cases h : p.1 = k'
      · have hkk : ¬ k = k' := fun hk => hp (h.trans hk.symm)
        have hkk' : ¬ k' = k := fun hk => hkk hk.symm
        simp [recordSet, recordGet, hp, h, hkk, hkk']
      · simp [recordSet, recordGet, hp, h, ih]

theorem recordGet_append (l₁ l₂ : List (String × α)) (k : String) :
    recordGet (l₁ ++ l₂) k = optOr (recordGet l₁ k) (recordGet l₂ k) := by
  induction l₁ with
  | nil => simp [recordGet, optOr]
  | cons p rest ih =>
    by_cases h : p.1 = k <;> simp [recordGet, h, optOr, ih]

theorem lastWrite_cons (a : String × α) (rest : List (String × α)) (k : String) :
    lastWrite (a :: rest) k =
      optOr (lastWrite rest k) (if a.1 = k then some a.2 else none) := by
  by_cases h : a.1 = k <;>
    simp [lastWrite, List.reverse_cons, recordGet_append, recordGet, h]

theorem optOr_assoc (a b c : Option α) :
    optOr (optOr a b) c = optOr a (optOr b c) := by
  cases a <;> cases b <;> simp [optOr]

theorem recordGet_recordAssign (r e : List (String × α)) (k : String) :
    recordGet (recordAssign r e) k = optOr (lastWrite e k) (recordGet r k) := by
  induction e generalizing r with
  | nil => simp [recordAssign, lastWrite, recordGet, optOr]
  | cons a rest ih =>
    have step : recordAssign r (a :: rest) = recordAssign (recordSet r a.1 a.2) rest := rfl
    rw [step, ih, lastWrite_cons, optOr_assoc, recordGet_recordSet]
    by_cases h : a.1 = k <;> simp [h, optOr]

theorem recordDelete_cons (p : String × α) (rest : List (String × α)) (k : String) :
    recordDelete (p :: rest) k =
      if p.1 = k then recordDelete rest k else p :: recordDelete rest k := by
  by_cases h : p.1 = k <;> simp [recordDelete, List.filter_cons, h]

theorem recordGet_recordDelete_self (r : List (String × α)) (k : String) :
    recordGet (recordDelete r k) k = none := by
  induction r with
  | nil => rfl
  | cons p rest ih =>
    rw [recordDelete_cons]
    by_cases h : p.1 = k
    · simpa [h] using ih
    · simpa [h, recordGet] using ih

theorem recordGet_recordDelete_other (r : List (String × α)) (k k' : String)
    (h : k ≠ k') : recordGet (recordDelete r k) k' = recordGet r k' := by
  induction r with
  | nil => rfl
  | cons p rest ih =>
    rw [recordDelete_cons]
    by_cases hp : p.1 = k
    · have hp' : ¬ p.1 = k' := fun hc => h (hp.symm.trans hc)
      simpa [hp, hp', h, recordGet] using ih
    · have hk' : ¬ k' = k := fun hc => h hc.symm
      by_cases hk : p.1 = k'
      · simp [hp, hk, hk', recordGet]
      · simpa [hp, hk, recordGet] using ih

theorem recordGet_map_update (l : List (String × β)) (tid k : String) (f : β → β) :
    recordGet (l.map (fun kv => if kv.1 = tid then (kv.1, f kv.2) else kv)) k =
      if k = tid then (recordGet l k).map f else recordGet l k := by
  induction l with
  | nil => by_cases h : k = tid <;> simp [recordGet, h]
  | cons p rest ih =>
    by_cases hp : p.1 = tid
    · by_cases hk : k = tid
      · have h1 : p.1 = k := hp.trans hk.symm
        simp [recordGet, hp, hk, h1]
      · have h1 : ¬ p.1 = k := fun hc => hk (hc.symm.trans hp)
        have h2 : ¬ tid = k := fun hc => hk hc.symm
        simp [recordGet, hp, hk, h1, h2, ih]
    · by_cases hc : p.1 = k
      · have h1 : ¬ k = tid := fun hk => hp (hc.trans hk)
        simp [recordGet, hp, hc, h1]
      · by_cases hk : k = tid
        · subst hk
          simp [recordGet, hp, hc, ih]
        · simp [recordGet, hp, hc, hk, ih]

theorem recordGet_applyTraceAdds (buf : PendingBuffer) (e : String)
    (a : String × Signal) (adds : List (String × Signal)) :
    recordGet (applyTraceAdds buf e (a :: adds)) e =
      some (recordAssign ((recordGet buf e).getD []) (a :: adds)) := by
  induction adds generalizing buf a with
  | nil =>
    simp [applyTraceAdds, addPendingTraceSignal, recordGet_recordSet, recordAssign]
  | cons b rest ih =>
    have h1 : applyTraceAdds buf e (a :: b :: rest)
        = applyTraceAdds (addPendingTraceSignal buf e a.1 a.2) e (b :: rest) := rfl
    rw [h1, ih]
    have h2 : recordGet (addPendingTraceSignal buf e a.1 a.2) e
        = some (recordSet ((recordGet buf e).getD []) a.1 a.2) := by
      simp [addPendingTraceSignal, recordGet_recordSet]
    rw [h2]
    rfl

theorem recordGet_applySessionAdds (buf : PendingBuffer) (e : String)
    (a : String × Signal) (adds : List (String × Signal)) :
    recordGet (applySessionAdds buf e (a :: adds)) e =
      some (recordAssign ((recordGet buf e).getD []) (a :: adds)) := by
  induction adds generalizing buf a with
  | nil =>
    simp [applySessionAdds, addPendingSessionSignal, recordGet_recordSet, recordAssign]
  | cons b rest ih =>
    have h1 : applySessionAdds buf e (a :: b :: rest)
        = applySessionAdds (addPendingSessionSignal buf e a.1 a.2) e (b :: rest) := rfl
    rw [h1, ih]
    have h2 : recordGet (addPendingSessionSignal buf e a.1 a.2) e
        = some (recordSet ((recordGet buf e).getD []) a.1 a.2) := by
      simp [addPendingSessionSignal, recordGet_recordSet]
    rw [h2]
    rfl

/-! ### Claim theorems -/

/-- C2: when the writer's `write` rejects during `flush`, the drained spans
are re-inserted at the front of the shared output buffer, ahead of the spans
that arrived while the write was awaited and in their original order, nothing
is delivered, the rejection is rethrown, and a subsequent successful flush
delivers exactly those spans. -/
theorem flush_failure_requeues_spans_at_front
    (x : Span) (bs m m' : List Span) :
    (Tracer.flush (x :: bs) m false).buffer = (x :: bs) ++ m ∧
    (Tracer.flush (x :: bs) m false).written = none ∧
    (Tracer.flush (x :: bs) m false).threw = true ∧
    (Tracer.flush ((Tracer.flush (x :: bs) m false).buffer) m' true).written
      = some ((x :: bs) ++ m) ∧
    (Tracer.flush ((Tracer.flush (x :: bs) m false).buffer) m' true).buffer = m' := by
  simp [Tracer.flush]

/-- C4 counterexample: `Span.end()` is not idempotent-guarded — calling it a
second time at a later clock value overwrites `endTime`, so `endTime` does
not keep its value from the first call. -/
theorem span_end_twice_overwrites_endTime :
    ((exSpan.end 5).end 7).endTime = some 7 ∧
    (exSpan.end 5).endTime = some 5 ∧
    ((exSpan.end 5).end 7).endTime ≠ (exSpan.end 5).endTime := by
  refine ⟨rfl, rfl, by decide⟩

/-- C4 (amended): the idempotence guard lives in `Tracer.endSpan`, not in
`Span.end`: `endSpan` calls `end()` only when `endTime` is unset (falsy), so
ending an already-ended span through the tracer leaves its `endTime`
unchanged, while `Span.end` itself unconditionally records the current
time. -/
theorem endSpan_preserves_existing_endTime :
    (∀ (st : TracerState) (stack : List Span) (s : Span) (t now : Nat),
      (Tracer.endSpan st stack { s with endTime := some (t + 1) } now).1.endTime
        = some (t + 1)) ∧
    (∀ (s : Span) (now : Nat), (Span.end s now).endTime = some now) := by
  constructor
  · intro st stack s t now
    simp [Tracer.endSpan, jsTruthyOptNat, apply_ite]
  · intro s now
    rfl

/-- C6: a span started while another span is at the top of the context stack
links to it — `parentId` is the parent's `spanId` and `traceId` is inherited —
while a span started with an empty stack opens a fresh trace (its `traceId`
is the newly minted identifier) and takes the caller-supplied `sessionId` or,
absent one, a freshly generated identifier. -/
theorem startSpan_parent_linkage :
    (∀ (st : TracerState) (stack : List Span) (p : Span) (name : String)
        (opts : StartOpts) (fresh : Fresh) (now : Nat),
      (Tracer.startSpan st (stack ++ [p]) name opts fresh now).1.parentId
        = some p.spanId ∧
      (Tracer.startSpan st (stack ++ [p]) name opts fresh now).1.traceId
        = p.traceId) ∧
    (∀ (st : TracerState) (name : String) (opts : StartOpts) (fresh : Fresh)
        (now : Nat),
      (Tracer.startSpan st [] name opts fresh now).1.traceId = fresh.traceId ∧
      (Tracer.startSpan st [] name opts fresh now).1.parentId = none ∧
      (Tracer.startSpan st [] name opts fresh now).1.sessionId
        = some (opts.sessionId.getD fresh.sessionId)) := by
  constructor
  · intro st stack p name opts fresh now
    constructor <;> simp [Tracer.startSpan, List.getLast?_concat]
  · intro st name opts fresh now
    refine ⟨rfl, rfl, rfl⟩

/-- C3 counterexample: `BackendSpanWriter.write` does not report transport
failures — at the concrete batch `[exSpan]`, both a non-2xx response and a
network exception leave the returned promise resolved, so the claimed
writer contract `specWriteReportsFailure` is false of this writer. -/
theorem write_does_not_report_transport_failures :
    (BackendSpanWriter.write [exSpan] (FetchOutcome.response false)).result
      = WriteResult.resolved ∧
    (BackendSpanWriter.write [exSpan] FetchOutcome.networkError).result
      = WriteResult.resolved ∧
    ¬ specWriteReportsFailure := by
  refine ⟨rfl, rfl, ?_⟩
  intro h
  have h1 := h [exSpan] (FetchOutcome.response false) (by decide) (by decide)
  exact absurd h1 (by decide)

/-- C3 (amended): `write` never throws synchronously and never rejects
either: every transport failure (non-2xx response or network exception) is
caught and logged inside `write` and the promise resolves, so no failure is
reported back to the Tracer — its re-buffering retry path is unreachable with
this writer, and `flush` drops the drained spans even when transport
failed. -/
theorem write_always_resolves :
    (∀ (spans : List Span) (outcome : FetchOutcome),
      (BackendSpanWriter.write spans outcome).result = WriteResult.resolved) ∧
    (∀ (b m spans : List Span) (outcome : FetchOutcome),
      Tracer.flush b m ((BackendSpanWriter.write spans outcome).result.isResolved)
        = Tracer.flush b m true) ∧
    (∀ (b m : List Span),
      (Tracer.flush b m true).threw = false ∧ (Tracer.flush b m true).buffer = m) := by
  have h1 : ∀ (spans : List Span) (outcome : FetchOutcome),
      (BackendSpanWriter.write spans outcome).result = WriteResult.resolved := by
    intro spans outcome
    unfold BackendSpanWriter.write
    split
    · rfl
    · cases outcome with
      | response ok => cases ok <;> rfl
      | networkError => rfl
  refine ⟨h1, ?_, ?_⟩
  · intro b m spans outcome
    rw [h1]
    rfl
  · intro b m
    constructor <;> simp [Tracer.flush, apply_ite]

/-- C5 counterexample: for the string `"Infinity"` — which is not parseable
as a FINITE number, so the claim assigns it type `boolean` — `addSignal`
stores type `numerical`, because the code only tests `!isNaN(Number(value))`
and `Number("Infinity")` is not `NaN`. -/
theorem addSignal_infinity_detected_numerical :
    recordGet ((Span.addSignal exSpan "x" (.str "Infinity") none).signals) "x"
      = some { value := .str "Infinity", type := SignalType.numerical } ∧
    specDetectSignalType (.str "Infinity") = SignalType.boolean := by
  constructor <;> decide

/-- C5 (amended): an explicitly supplied type is stored unchanged; with the
type omitted, `addSignal`'s inlined detection agrees with `detectSignalType`:
boolean for native booleans, numerical for native numbers, boolean for
case-insensitive `"true"`/`"false"`, numerical for every string `s` with
`Number(s)` not `NaN` — which includes non-finite parses such as `"Infinity"`
and the empty string — and boolean for all remaining strings, as the five
concrete examples illustrate. -/
theorem addSignal_type_detection :
    (∀ (sp : Span) (name : String) (value : JSValue) (t : SignalType),
      recordGet ((sp.addSignal name value (some t)).signals) name
        = some { value := value, type := t }) ∧
    (∀ (sp : Span) (name : String) (value : JSValue),
      recordGet ((sp.addSignal name value none).signals) name
        = some { value := value, type := detectSignalType value }) ∧
    (∀ b, detectSignalType (.bool b) = SignalType.boolean) ∧
    (∀ n, detectSignalType (.num n) = SignalType.numerical) ∧
    detectSignalType (.str "true") = SignalType.boolean ∧
    detectSignalType (.str "FALSE") = SignalType.boolean ∧
    detectSignalType (.str "3.14") = SignalType.numerical ∧
    detectSignalType (.str "hello") = SignalType.boolean ∧
    detectSignalType (.str "Infinity") = SignalType.numerical ∧
    detectSignalType (.str "") = SignalType.numerical := by
  refine ⟨?_, ?_, ?_, ?_, ?_, ?_, ?_, ?_, ?_, ?_⟩
  · intro sp name value t
    simp [Span.addSignal, recordGet_recordSet]
  · intro sp name value
    cases value <;> simp [Span.addSignal, detectSignalType, recordGet_recordSet]
  · intro b
    rfl
  · intro n
    rfl
  all_goals decide

/-- C7: a child span's tags are the parent's tags overlaid with the
caller-supplied tags, the caller winning on key collision; and
`addTraceTags` merges the supplied tags (new tags winning) into every span of
that trace's bucket and into every buffered span of the trace, so both
not-yet-transmitted locations are updated. -/
theorem tag_inheritance_and_addTraceTags :
    (∀ (st : TracerState) (stack : List Span) (p : Span) (name : String)
        (opts : StartOpts) (fresh : Fresh) (now : Nat) (k : String),
      recordGet (Tracer.startSpan st (stack ++ [p]) name opts fresh now).1.tags k
        = optOr (lastWrite opts.tags k) (recordGet p.tags k)) ∧
    (∀ (st : TracerState) (tid : String) (tags : List (String × String)),
      (Tracer.addTraceTags st tid tags).buffer
        = st.buffer.map (fun s => if s.traceId = tid then s.assignTags tags else s) ∧
      recordGet (Tracer.addTraceTags st tid tags).traceBuckets tid
        = (recordGet st.traceBuckets tid).map
            (fun spans => spans.map (fun s => s.assignTags tags))) ∧
    (∀ (s : Span) (tags : List (String × String)) (k : String),
      recordGet (s.assignTags tags).tags k
        = optOr (lastWrite tags k) (recordGet s.tags k)) := by
  refine ⟨?_, ?_, ?_⟩
  · intro st stack p name opts fresh now k
    simp [Tracer.startSpan, List.getLast?_concat, recordGet_recordAssign]
  · intro st tid tags
    refine ⟨rfl, ?_⟩
    simpa using recordGet_map_update st.traceBuckets tid tid
      (fun spans => spans.map (fun s => s.assignTags tags))
  · intro s tags k
    simp [Span.assignTags, recordGet_recordAssign]

/-- C8 counterexample: for the concrete span `exSpan`, which carries no
error, the serialized wire record has `error_code` and `error_message`
absent but `error_stack` present and equal to the empty string — so the
three error fields are neither all absent together nor all present
together, and one of them is the empty string. -/
theorem wire_error_stack_present_and_empty :
    (Span.toWire exSpan).error_code = none ∧
    (Span.toWire exSpan).error_message = none ∧
    (Span.toWire exSpan).error_stack = "" := by
  refine ⟨rfl, rfl, rfl⟩

/-- C8 (amended): in `Span.toJSON` the three error fields are absent together
for a span with no recorded error; in the wire record built by
`BackendSpanWriter.write`, `error_code` and `error_message` stay absent but
`error_stack` is coerced by `String(base.error_stack ?? '')` to an
always-present string — the empty string when there is no error — and when an
error with all three parts was recorded, all three wire fields carry them. -/
theorem error_fields_serialization :
    (∀ s : Span,
      (Span.toJSON { s with error := none }).error_code = none ∧
      (Span.toJSON { s with error := none }).error_message = none ∧
      (Span.toJSON { s with error := none }).error_stack = none ∧
      (Span.toWire { s with error := none }).error_code = none ∧
      (Span.toWire { s with error := none }).error_message = none ∧
      (Span.toWire { s with error := none }).error_stack = "") ∧
    (∀ (s : Span) (c m stk : String),
      (Span.toWire { s with error := some (⟨some c, some m, some stk⟩ : ErrorInfo) }).error_code
        = some c ∧
      (Span.toWire { s with error :=
          (⟨some c, some m, some stk⟩ : ErrorInfo) }).error_message
        = some m ∧
      (Span.toWire { s with error :=
          (⟨some c, some m, some stk⟩ : ErrorInfo) }).error_stack
        = stk) := by
  constructor
  · intro s
    refine ⟨rfl, rfl, rfl, rfl, rfl, rfl⟩
  · intro s c m stk
    refine ⟨rfl, rfl, rfl⟩

/-- C9: `addPending` upserts into the entity's pending-signal map and
`popPending` removes and returns the whole map: after a nonempty sequence of
adds, one pop returns the accumulated map, whose per-name lookup is the last
signal written for that name (falling back to any earlier content); and a
second pop for the same entity returns nothing, for the trace store and the
session store alike. -/
theorem pending_signals_upsert_pop :
    (∀ (buf : PendingBuffer) (e : String) (a : String × Signal)
        (adds : List (String × Signal)),
      (popPendingTraceSignals (applyTraceAdds buf e (a :: adds)) e).1
        = some (recordAssign ((recordGet buf e).getD []) (a :: adds))) ∧
    (∀ (init adds : List (String × Signal)) (n : String),
      recordGet (recordAssign init adds) n
        = optOr (lastWrite adds n) (recordGet init n)) ∧
    (∀ (buf : PendingBuffer) (e : String),
      (popPendingTraceSignals (popPendingTraceSignals buf e).2 e).1 = none) ∧
    (∀ (buf : PendingBuffer) (e : String) (a : String × Signal)
        (adds : List (String × Signal)),
      (popPendingSessionSignals (applySessionAdds buf e (a :: adds)) e).1
        = some (recordAssign ((recordGet buf e).getD []) (a :: adds))) ∧
    (∀ (buf : PendingBuffer) (e : String),
      (popPendingSessionSignals (popPendingSessionSignals buf e).2 e).1 = none) := by
  refine ⟨?_, ?_, ?_, ?_, ?_⟩
  · intro buf e a adds
    simp [popPendingTraceSignals, recordGet_applyTraceAdds]
  · intro init adds n
    exact recordGet_recordAssign init adds n
  · intro buf e
    rcases h : recordGet buf e with _ | sigs <;>
      simp [popPendingTraceSignals, h, recordGet_recordDelete_self]
  · intro buf e a adds
    simp [popPendingSessionSignals, recordGet_applySessionAdds]
  · intro buf e
    rcases h : recordGet buf e with _ | sigs <;>
      simp [popPendingSessionSignals, h, recordGet_recordDelete_self]

theorem endSpan_fst (st : TracerState) (stack : List Span) (s : Span)
    (now : Nat) :
    (Tracer.endSpan st stack s now).1 =
      if jsTruthyOptNat s.endTime then s else s.end now := by
  unfold Tracer.endSpan
  dsimp only
  split <;> (split <;> rfl)

/-- C10: `addTraceTags` and `addSessionTags` write nothing but the `tags` map
of the affected spans — erasing `tags`, the buffer and the trace buckets are
unchanged, so identity, timing, attributes, IO, signals, status and in
particular the separate `traceTags`/`sessionTags` maps are untouched;
moreover no Tracer operation ever writes `traceTags`/`sessionTags`:
`startSpan` creates them empty, `endSpan` passes them through, and `toJSON`
serializes them verbatim (hence as empty objects unless set directly on the
span). -/
theorem tag_helpers_frame :
    (∀ (s : Span) (tags : List (String × String)),
      (s.assignTags tags).eraseTags = s.eraseTags) ∧
    (∀ (st : TracerState) (tid : String) (tags : List (String × String)),
      (Tracer.addTraceTags st tid tags).buffer.map Span.eraseTags
        = st.buffer.map Span.eraseTags ∧
      (Tracer.addTraceTags st tid tags).traceBuckets.map
          (fun kv => (kv.1, kv.2.map Span.eraseTags))
        = st.traceBuckets.map (fun kv => (kv.1, kv.2.map Span.eraseTags))) ∧
    (∀ (st : TracerState) (sid : String) (tags : List (String × String)),
      (Tracer.addSessionTags st sid tags).buffer.map Span.eraseTags
        = st.buffer.map Span.eraseTags ∧
      (Tracer.addSessionTags st sid tags).traceBuckets.map
          (fun kv => (kv.1, kv.2.map Span.eraseTags))
        = st.traceBuckets.map (fun kv => (kv.1, kv.2.map Span.eraseTags))) ∧
    (∀ (st : TracerState) (stack : List Span) (name : String) (opts : StartOpts)
        (fresh : Fresh) (now : Nat),
      (Tracer.startSpan st stack name opts fresh now).1.traceTags = [] ∧
      (Tracer.startSpan st stack name opts fresh now).1.sessionTags = []) ∧
    (∀ (st : TracerState) (stack : List Span) (s : Span) (now : Nat),
      (Tracer.endSpan st stack s now).1.traceTags = s.traceTags ∧
      (Tracer.endSpan st stack s now).1.sessionTags = s.sessionTags) ∧
    (∀ s : Span,
      s.toJSON.trace_tags = s.traceTags ∧ s.toJSON.session_tags = s.sessionTags) := by
  have herase : ∀ (s : Span) (tags : List (String × String)),
      (s.assignTags tags).eraseTags = s.eraseTags := fun _ _ => rfl
  refine ⟨herase, ?_, ?_, ?_, ?_, ?_⟩
  · intro st tid tags
    constructor
    · simp only [Tracer.addTraceTags, List.map_map]
      refine List.map_congr_left ?_
      intro s _
      by_cases h : s.traceId = tid <;> simp [h, herase]
    · simp only [Tracer.addTraceTags, List.map_map]
      refine List.map_congr_left ?_
      intro kv _
      by_cases h : kv.1 = tid <;> simp [h, List.map_map, herase]
  · intro st sid tags
    constructor
    · simp only [Tracer.addSessionTags, List.map_map]
      refine List.map_congr_left ?_
      intro s _
      by_cases h : s.sessionId = some sid <;> simp [h, herase]
    · simp only [Tracer.addSessionTags, List.map_map]
      refine List.map_congr_left ?_
      intro kv _
      refine congrArg (fun l => (kv.1, l)) ?_
      simp only [List.map_map]
      refine List.map_congr_left ?_
      intro s _
      by_cases h : s.sessionId = some sid <;> simp [h, herase]
  · intro st stack name opts fresh now
    rcases h : stack.getLast? with _ | p <;>
      constructor <;> simp [Tracer.startSpan, h]
  · intro st stack s now
    constructor <;>
      · rw [endSpan_fst]
        by_cases h : jsTruthyOptNat s.endTime <;> simp [h, Span.end]
  · intro s
    exact ⟨rfl, rfl⟩

/-- C1 (evaluation at the failing input): a three-deep trace — root `r`, its
child `a`, grandchild `b` — ended innermost-first is emitted to the shared
buffer as `[r, b, a]`: the root does come first, but the grandchild `b`
precedes its own parent `a`, so the batch is NOT in parent-before-child
order, contradicting the spec's guarantee and the source's own comment that
the bucket is moved "ordered parent-first". -/
theorem flush_batch_not_parent_before_child :
    c1FinalBuffer.map Span.spanId = ["r", "b", "a"] ∧
    c1FinalBuffer.map Span.parentId = [none, some "a", some "r"] ∧
    ¬ parentBeforeChild c1FinalBuffer := by
  refine ⟨by decide, by decide, by decide⟩

end ZeroEval
